import Mathlib

/-!
Verification of the request-dispatch subsystem in
src/services/cloudflare.ts: token verification, the cached and retried
request dispatcher, and the startup credential gate.

The embedding is a shallow one. Time is a natural number of milliseconds
(the value of Date.now()); each dispatch is given one such instant. The
network is a function from the attempt index to the outcome of that fetch
call: none models fetch throwing (a transport failure), some r models
fetch returning the response r. The module-level cache Map is passed and
returned explicitly, and every dispatch also reports how many fetch calls
it made, so that claims about network activity can be stated.
-/

namespace Cloudflare

/-- The JSON envelope the API wraps every payload in (the
CloudflareResponse type of the source): the dispatcher reads only the
result field and discards the rest. -/
structure CloudflareResponse (α : Type) where
  success : Bool
  errors : List String
  messages : List String
  result : α
  deriving DecidableEq

/-- A raw HTTP response as the dispatcher consumes it: the ok flag
(status in the 2xx range), the status code, and the parsed JSON body. -/
structure Response (α : Type) where
  ok : Bool
  status : Nat
  body : CloudflareResponse α
  deriving DecidableEq

/-- The two errors thrown by request. transportExhausted embeds the
throw on line 70 (no response after the retry budget); apiError path
status embeds the throw on line 71 (response obtained, status not ok). -/
inductive ApiFail where
  | transportExhausted : ApiFail
  | apiError (path : String) (status : Nat) : ApiFail
  deriving DecidableEq

/-- One cache entry: the unwrapped result and its storage time in
milliseconds (time.getTime() of the source's Date). -/
structure CacheEntry (α : Type) where
  result : α
  time : Nat
  deriving DecidableEq

/-- The module-level cache Map, as an association list from endpoint path
to entry; lookup takes the first binding, so consing a new binding has the
same observable behaviour as Map.set. -/
abbrev Cache (α : Type) : Type := List (String × CacheEntry α)

/-- cache.get / cache.has of the source, as one partial lookup. -/
def cacheGet {α : Type} : Cache α → String → Option (CacheEntry α)
  | [], _ => none
  | (k₂, v) :: rest, k => if k₂ = k then some v else cacheGet rest k

/-- cache.set of the source: bind k to v, shadowing any older binding. -/
def cacheSet {α : Type} (c : Cache α) (k : String) (v : CacheEntry α) : Cache α :=
  (k, v) :: c

/-- The network as the retry loop sees it: given the HTTP method, the
endpoint path and the index of the attempt, either none (this fetch call
threw: network error, DNS failure, timeout) or some response. The headers,
body and bearer token of the source's fetch call are folded into this
function, since no claim depends on them individually. -/
def FetchFn (α : Type) : Type := String → String → Nat → Option (Response α)

/-- The while loop of retriedRequest (lines 87-102): response starts
undefined and tries at 0; each throwing fetch call increments tries; the
loop runs while there is no response and tries < 10. The extra fuel
argument makes the recursion structural; it is 10 at entry and never
reaches 0 while the guard tries < 10 still holds, so the fuel-exhausted
branch is unreachable from retriedRequest. Returns the obtained response
(none if every attempt threw) together with the number of fetch calls
made. -/
def retryLoopAux {α : Type} (attempt : Nat → Option (Response α)) :
    Nat → Nat → Option (Response α) × Nat
  | 0, tries => (none, tries)
  | fuel + 1, tries =>
    if tries < 10 then
      match attempt tries with
      | some r => (some r, tries + 1)
      | none => retryLoopAux attempt fuel (tries + 1)
    else (none, tries)

/-- retriedRequest (lines 83-105): run the retry loop from zero tries. -/
def retriedRequest {α : Type} (attempt : Nat → Option (Response α)) :
    Option (Response α) × Nat :=
  retryLoopAux attempt 10 0

/-- The cache-expiry test on line 65:
cache.get(endpoint).time.getTime() < Date.now() - 1000 * cacheTimeSeconds,
with the JS number arithmetic carried out exactly in Int. -/
def isExpired (storedAt now cacheTimeSeconds : Nat) : Bool :=
  decide ((storedAt : Int) < (now : Int) - 1000 * (cacheTimeSeconds : Int))

/-- What one dispatch produces: the value returned or error thrown, the
cache Map after the dispatch, and the number of fetch calls made. -/
structure DispatchResult (α : Type) where
  outcome : Except ApiFail α
  cache : Cache α
  fetchCalls : Nat

/-- Lines 68-76 of request, the path taken when the cache did not hit:
invoke the retried fetch, throw transportExhausted if no response was ever
obtained, throw apiError if the response status is not ok, otherwise
unwrap the envelope, write the cache when cacheTimeSeconds > 0, and return
the result field. -/
def fetchAndStore {α : Type} (trans : FetchFn α) (cache : Cache α) (now : Nat)
    (method endpoint : String) (cacheTimeSeconds : Nat) : DispatchResult α :=
  match retriedRequest (trans method endpoint) with
  | (none, n) =>
    { outcome := Except.error ApiFail.transportExhausted, cache := cache, fetchCalls := n }
  | (some r, n) =>
    if !r.ok then
      { outcome := Except.error (ApiFail.apiError endpoint r.status), cache := cache
        fetchCalls := n }
    else
      { outcome := Except.ok r.body.result
        cache :=
          if 0 < cacheTimeSeconds then cacheSet cache endpoint ⟨r.body.result, now⟩ else cache
        fetchCalls := n }

/-- request (lines 63-77). now is Date.now() during this dispatch. The
source tests cacheExists && !cacheExpired and returns the stored result on
a hit; otherwise it falls through to the fetch path. -/
def request {α : Type} (trans : FetchFn α) (cache : Cache α) (now : Nat)
    (method endpoint : String) (cacheTimeSeconds : Nat) : DispatchResult α :=
  match cacheGet cache endpoint with
  | some entry =>
    if isExpired entry.time now cacheTimeSeconds then
      fetchAndStore trans cache now method endpoint cacheTimeSeconds
    else
      { outcome := Except.ok entry.result, cache := cache, fetchCalls := 0 }
  | none => fetchAndStore trans cache now method endpoint cacheTimeSeconds

/-- The declared default of the cacheTimeSeconds parameter on line 63. -/
def defaultCacheTimeSeconds : Nat := 60 * 5

/-- What a call of verifyToken produces: the boolean the awaiting caller
receives, and the rejection (if any) of the floating promise left behind
by the un-awaited inner dispatch. -/
structure VerifyResult where
  value : Bool
  unhandledRejection : Option ApiFail
  deriving DecidableEq

/-- verifyToken (lines 15-22). The source runs
request('GET', 'user/tokens/verify', undefined, undefined, token, 0)
WITHOUT await inside try/catch. Calling an async function never throws
into the enclosing try block: a failing dispatch only rejects the promise
the call returned, which nothing awaits. The catch branch (return false)
is therefore unreachable, the function always resolves to true, and a
dispatch failure surfaces only as an unhandled promise rejection, recorded
here in the unhandledRejection field. The token argument is folded into
trans, as for every dispatch. -/
def verifyToken {α : Type} (trans : FetchFn α) (cache : Cache α) (now : Nat) : VerifyResult :=
  let d := request trans cache now "GET" "user/tokens/verify" 0
  { value := true
    unhandledRejection :=
      match d.outcome with
      | Except.error e => some e
      | Except.ok _ => none }

/-- How the top-level API_KEY initializer ends: terminating the process
with an exit code, or proceeding with the verified key. -/
inductive StartupOutcome where
  | exit (code : Nat) : StartupOutcome
  | proceed (key : String) : StartupOutcome
  deriving DecidableEq

/-- The API_KEY startup block (lines 110-126): read
process.env.CLOUDFLARE_API_KEY, exit(1) when it is falsy (unset, or the
empty string), exit(1) when the verifier reports the key invalid, and
otherwise proceed with the key. verify is the verdict the startup code
awaits from verifyToken. -/
def loadApiKey (env : Option String) (verify : String → Bool) : StartupOutcome :=
  match env with
  | none => StartupOutcome.exit 1
  | some k =>
    if k = "" then StartupOutcome.exit 1
    else if verify k then StartupOutcome.proceed k
    else StartupOutcome.exit 1

/-! ### Helper lemmas on the retry loop -/

/-- If every attempt throws, the loop runs its guard down: starting with
fuel covering the remaining budget it ends with no response after exactly
10 fetch calls. -/
theorem retryLoopAux_all_none {α : Type} (attempt : Nat → Option (Response α))
    (h : ∀ i, attempt i = none) :
    ∀ fuel tries, tries + fuel = 10 → retryLoopAux attempt fuel tries = (none, 10) := by
  intro fuel
  induction fuel with
  | zero =>
    intro tries ht
    have h10 : tries = 10 := by omega
    subst h10
    rfl
  | succ n ih =>
    intro tries ht
    have hlt : tries < 10 := by omega
    simp only [retryLoopAux, if_pos hlt, h tries]
    exact ih (tries + 1) (by omega)

/-- retriedRequest with a transport failing on every attempt: no response,
exactly 10 fetch calls. -/
theorem retriedRequest_all_none {α : Type} (attempt : Nat → Option (Response α))
    (h : ∀ i, attempt i = none) : retriedRequest attempt = (none, 10) :=
  retryLoopAux_all_none attempt h 10 0 rfl

/-- If attempt k is the first to return a response, the loop stops right
there: k + 1 fetch calls, whatever the response looks like. -/
theorem retryLoopAux_first_some {α : Type} (attempt : Nat → Option (Response α))
    (k : Nat) (r : Response α) (hk : k < 10)
    (hnone : ∀ i, i < k → attempt i = none) (hr : attempt k = some r) :
    ∀ fuel tries, tries + fuel = 10 → tries ≤ k →
      retryLoopAux attempt fuel tries = (some r, k + 1) := by
  intro fuel
  induction fuel with
  | zero => intro tries ht hle; omega
  | succ n ih =>
    intro tries ht hle
    have hlt : tries < 10 := by omega
    rcases Nat.eq_or_lt_of_le hle with hek | hek
    · subst hek
      simp only [retryLoopAux, if_pos hlt, hr]
    · simp only [retryLoopAux, if_pos hlt, hnone tries hek]
      exact ih (tries + 1) (by omega) (by omega)

/-- retriedRequest when attempt k is the first to return a response. -/
theorem retriedRequest_first_some {α : Type} (attempt : Nat → Option (Response α))
    (k : Nat) (r : Response α) (hk : k < 10)
    (hnone : ∀ i, i < k → attempt i = none) (hr : attempt k = some r) :
    retriedRequest attempt = (some r, k + 1) :=
  retryLoopAux_first_some attempt k r hk hnone hr 10 0 rfl (Nat.zero_le k)

/-- The fetch-call count the loop reports never drops below the count it
started from. -/
theorem retryLoopAux_snd_ge {α : Type} (attempt : Nat → Option (Response α)) :
    ∀ fuel tries, tries ≤ (retryLoopAux attempt fuel tries).2 := by
  intro fuel
  induction fuel with
  | zero => intro tries; exact Nat.le_refl tries
  | succ n ih =>
    intro tries
    by_cases hlt : tries < 10
    · simp only [retryLoopAux, if_pos hlt]
      match attempt tries with
      | some r => exact Nat.le_succ tries
      | none => exact Nat.le_trans (Nat.le_succ tries) (ih (tries + 1))
    · simp only [retryLoopAux, if_neg hlt]
      exact Nat.le_refl tries

/-- The retried fetch always makes at least one fetch call. -/
theorem retriedRequest_calls_pos {α : Type} (attempt : Nat → Option (Response α)) :
    1 ≤ (retriedRequest attempt).2 := by
  show 1 ≤ (retryLoopAux attempt 10 0).2
  simp only [retryLoopAux, if_pos (by omega : 0 < 10)]
  match attempt 0 with
  | some r => exact Nat.le_refl 1
  | none => exact retryLoopAux_snd_ge attempt 9 1

/-- The fetch path always makes at least one fetch call. -/
theorem fetchAndStore_calls_pos {α : Type} (trans : FetchFn α) (c : Cache α) (now : Nat)
    (m p : String) (ttl : Nat) : 1 ≤ (fetchAndStore trans c now m p ttl).fetchCalls := by
  unfold fetchAndStore
  have h := retriedRequest_calls_pos (trans m p)
  rcases hr : retriedRequest (trans m p) with ⟨resp, n⟩
  rw [hr] at h
  cases resp with
  | none => simpa using h
  | some r =>
    cases hok : r.ok <;> simp only [hok] <;> simpa using h

/-! ### Helper lemmas on the fetch path and the dispatcher -/

/-- Fetch path when every attempt throws: transportExhausted, cache kept,
10 fetch calls. -/
theorem fetchAndStore_all_none {α : Type} (trans : FetchFn α) (c : Cache α) (now : Nat)
    (m p : String) (ttl : Nat) (h : ∀ i, trans m p i = none) :
    fetchAndStore trans c now m p ttl =
      { outcome := Except.error ApiFail.transportExhausted, cache := c, fetchCalls := 10 } := by
  unfold fetchAndStore
  rw [retriedRequest_all_none (trans m p) h]

/-- Fetch path when the first response, at attempt k, has a not-ok status:
apiError with the path and that status, cache kept, k + 1 fetch calls. -/
theorem fetchAndStore_first_bad {α : Type} (trans : FetchFn α) (c : Cache α) (now : Nat)
    (m p : String) (ttl : Nat) (k : Nat) (r : Response α) (hk : k < 10)
    (hnone : ∀ i, i < k → trans m p i = none) (hr : trans m p k = some r)
    (hok : r.ok = false) :
    fetchAndStore trans c now m p ttl =
      { outcome := Except.error (ApiFail.apiError p r.status), cache := c,
        fetchCalls := k + 1 } := by
  unfold fetchAndStore
  rw [retriedRequest_first_some (trans m p) k r hk hnone hr]
  simp [hok]

/-- Fetch path when the first response, at attempt k, is ok: the envelope's
result field is returned, the cache is written exactly when ttl is
positive, k + 1 fetch calls. -/
theorem fetchAndStore_first_ok {α : Type} (trans : FetchFn α) (c : Cache α) (now : Nat)
    (m p : String) (ttl : Nat) (k : Nat) (r : Response α) (hk : k < 10)
    (hnone : ∀ i, i < k → trans m p i = none) (hr : trans m p k = some r)
    (hok : r.ok = true) :
    fetchAndStore trans c now m p ttl =
      { outcome := Except.ok r.body.result,
        cache := if 0 < ttl then cacheSet c p ⟨r.body.result, now⟩ else c,
        fetchCalls := k + 1 } := by
  unfold fetchAndStore
  rw [retriedRequest_first_some (trans m p) k r hk hnone hr]
  simp [hok]

/-- Dispatcher on a fresh cache hit: the stored result comes straight
back, the cache is untouched, and no fetch call is made. -/
theorem request_hit {α : Type} (trans : FetchFn α) (c : Cache α) (now : Nat)
    (m p : String) (ttl : Nat) (e : CacheEntry α) (he : cacheGet c p = some e)
    (hfresh : isExpired e.time now ttl = false) :
    request trans c now m p ttl =
      { outcome := Except.ok e.result, cache := c, fetchCalls := 0 } := by
  unfold request
  rw [he]
  simp [hfresh]

/-- Dispatcher on a missing cache entry: it is exactly the fetch path. -/
theorem request_miss_none {α : Type} (trans : FetchFn α) (c : Cache α) (now : Nat)
    (m p : String) (ttl : Nat) (he : cacheGet c p = none) :
    request trans c now m p ttl = fetchAndStore trans c now m p ttl := by
  unfold request
  rw [he]

/-- Dispatcher on an expired cache entry: it is exactly the fetch path. -/
theorem request_miss_expired {α : Type} (trans : FetchFn α) (c : Cache α) (now : Nat)
    (m p : String) (ttl : Nat) (e : CacheEntry α) (he : cacheGet c p = some e)
    (hexp : isExpired e.time now ttl = true) :
    request trans c now m p ttl = fetchAndStore trans c now m p ttl := by
  unfold request
  rw [he]
  simp [hexp]

/-- Dispatcher when every cached entry for the path (if any) is expired:
it is the fetch path. -/
theorem request_miss {α : Type} (trans : FetchFn α) (c : Cache α) (now : Nat)
    (m p : String) (ttl : Nat)
    (hmiss : ∀ e, cacheGet c p = some e → isExpired e.time now ttl = true) :
    request trans c now m p ttl = fetchAndStore trans c now m p ttl := by
  cases he : cacheGet c p with
  | none => exact request_miss_none trans c now m p ttl he
  | some e => exact request_miss_expired trans c now m p ttl e he (hmiss e he)

/-- Reading straight after cacheSet on the same key gives the new entry. -/
theorem cacheGet_cacheSet_self {α : Type} (c : Cache α) (k : String) (v : CacheEntry α) :
    cacheGet (cacheSet c k v) k = some v := by
  simp [cacheGet, cacheSet]

/-- Exhaustive shape of the fetch path: exhausted budget, not-ok
response, or ok response with the conditional cache write. -/
theorem fetchAndStore_cases {α : Type} (trans : FetchFn α) (c : Cache α) (now : Nat)
    (m p : String) (ttl : Nat) :
    (∃ n, retriedRequest (trans m p) = (none, n) ∧
      fetchAndStore trans c now m p ttl =
        { outcome := Except.error ApiFail.transportExhausted, cache := c, fetchCalls := n }) ∨
    (∃ r n, retriedRequest (trans m p) = (some r, n) ∧ r.ok = false ∧
      fetchAndStore trans c now m p ttl =
        { outcome := Except.error (ApiFail.apiError p r.status), cache := c,
          fetchCalls := n }) ∨
    (∃ r n, retriedRequest (trans m p) = (some r, n) ∧ r.ok = true ∧
      fetchAndStore trans c now m p ttl =
        { outcome := Except.ok r.body.result,
          cache := if 0 < ttl then cacheSet c p ⟨r.body.result, now⟩ else c,
          fetchCalls := n }) := by
  rcases hr : retriedRequest (trans m p) with ⟨resp, n⟩
  cases resp with
  | none => exact Or.inl ⟨n, rfl, by unfold fetchAndStore; rw [hr]⟩
  | some r =>
    cases hok : r.ok with
    | false => exact Or.inr (Or.inl ⟨r, n, rfl, hok, by unfold fetchAndStore; rw [hr]; simp [hok]⟩)
    | true => exact Or.inr (Or.inr ⟨r, n, rfl, hok, by unfold fetchAndStore; rw [hr]; simp [hok]⟩)

/-- The fetch path never touches the cache when it throws. -/
theorem fetchAndStore_error_cache {α : Type} (trans : FetchFn α) (c : Cache α) (now : Nat)
    (m p : String) (ttl : Nat) (err : ApiFail)
    (h : (fetchAndStore trans c now m p ttl).outcome = Except.error err) :
    (fetchAndStore trans c now m p ttl).cache = c := by
  rcases fetchAndStore_cases trans c now m p ttl with
    ⟨n, _, heq⟩ | ⟨r, n, _, _, heq⟩ | ⟨r, n, _, _, heq⟩ <;> rw [heq] at h ⊢
  all_goals simp at h

/-- With ttl 0, the fetch path returns the cache it was given. -/
theorem fetchAndStore_ttl_zero_cache {α : Type} (trans : FetchFn α) (c : Cache α) (now : Nat)
    (m p : String) : (fetchAndStore trans c now m p 0).cache = c := by
  rcases fetchAndStore_cases trans c now m p 0 with
    ⟨n, _, heq⟩ | ⟨r, n, _, _, heq⟩ | ⟨r, n, _, _, heq⟩ <;> rw [heq]
  all_goals simp

/-! ### Claims -/

/-- C1: the claim says every dispatch failure inside verify(token) yields
false. The code calls request without await inside its try/catch, so the
catch never fires: verifyToken's value is true for every transport
behaviour, cache and instant; in particular, with a transport whose every
attempt throws, the dispatch raises TransportExhausted (left behind as an
unhandled promise rejection) and verifyToken still returns true — the
opposite of the claimed false. -/
theorem C1_verifyToken_never_false :
    (∀ (α : Type) (trans : FetchFn α) (c : Cache α) (now : Nat),
      (verifyToken trans c now).value = true) ∧
    verifyToken (α := Unit) (fun _ _ _ => none) [] 0 =
      { value := true, unhandledRejection := some ApiFail.transportExhausted } :=
  ⟨fun _ _ _ _ => rfl, rfl⟩

/-- C2: when every transport attempt for the method and path throws, the
retry loop makes exactly 10 fetch calls — never fewer, never more — and
yields no response, whereupon the dispatcher (when the cache does not hit)
raises TransportExhausted after exactly those 10 calls; and as soon as
attempt k yields a response, the loop stops with k + 1 fetch calls,
whatever the response's HTTP status. -/
theorem C2_retry_budget {α : Type} (trans : FetchFn α) (m p : String) :
    ((∀ i, trans m p i = none) →
      retriedRequest (trans m p) = (none, 10) ∧
      ∀ (c : Cache α) (now ttl : Nat),
        (∀ e, cacheGet c p = some e → isExpired e.time now ttl = true) →
        request trans c now m p ttl =
          { outcome := Except.error ApiFail.transportExhausted, cache := c,
            fetchCalls := 10 }) ∧
    (∀ (k : Nat) (r : Response α), k < 10 → (∀ i, i < k → trans m p i = none) →
      trans m p k = some r → retriedRequest (trans m p) = (some r, k + 1)) := by
  constructor
  · intro h
    refine ⟨retriedRequest_all_none (trans m p) h, ?_⟩
    intro c now ttl hmiss
    rw [request_miss trans c now m p ttl hmiss]
    exact fetchAndStore_all_none trans c now m p ttl h
  · intro k r hk hnone hr
    exact retriedRequest_first_some (trans m p) k r hk hnone hr

/-- C2 at concrete inputs: a transport that always throws gives (none, 10)
and the TransportExhausted dispatch outcome on an empty cache; a transport
whose attempts 0, 1, 2 throw and whose attempt 3 returns a 500 response
stops the loop at 4 fetch calls. -/
theorem C2_retry_budget_witness :
    retriedRequest ((fun _ _ _ => none : FetchFn Unit) "GET" "zones") = (none, 10) ∧
    request (fun _ _ _ => none : FetchFn Unit) [] 0 "GET" "zones" 300 =
      { outcome := Except.error ApiFail.transportExhausted, cache := [], fetchCalls := 10 } ∧
    retriedRequest
        ((fun _ _ i => if i = 3 then some ⟨false, 500, ⟨false, [], [], ()⟩⟩ else none :
          FetchFn Unit) "GET" "zones") =
      (some ⟨false, 500, ⟨false, [], [], ()⟩⟩, 4) := by
  refine ⟨?_, ?_, ?_⟩
  · exact ((C2_retry_budget (fun _ _ _ => none) "GET" "zones").1 (fun _ => rfl)).1
  · exact ((C2_retry_budget (fun _ _ _ => none) "GET" "zones").1 (fun _ => rfl)).2
      [] 0 300 (fun e he => by simp [cacheGet] at he)
  · exact (C2_retry_budget
      (fun _ _ i => if i = 3 then some ⟨false, 500, ⟨false, [], [], ()⟩⟩ else none)
      "GET" "zones").2 3 ⟨false, 500, ⟨false, [], [], ()⟩⟩ (by omega)
      (fun i hi => by rw [if_neg (by omega)]) rfl

/-- C3: whenever a non-expired cache entry exists for the path, the
dispatcher returns its stored result with the cache untouched and zero
fetch calls, for every method and every transport behaviour; hence after a
first dispatch that populated the cache from an empty slot, a second
dispatch of the path within the TTL window (any method, any transport)
returns the identical result and performs zero fetch calls. -/
theorem C3_cache_hit_short_circuit {α : Type} (trans : FetchFn α) (c : Cache α)
    (now : Nat) (m p : String) (ttl : Nat) :
    (∀ e, cacheGet c p = some e → isExpired e.time now ttl = false →
      request trans c now m p ttl =
        { outcome := Except.ok e.result, cache := c, fetchCalls := 0 }) ∧
    (∀ (t₂ : Nat) (m₂ : String) (trans₂ : FetchFn α) (v : α),
      cacheGet c p = none → 0 < ttl →
      (request trans c now m p ttl).outcome = Except.ok v →
      t₂ ≤ now + 1000 * ttl →
      request trans₂ (request trans c now m p ttl).cache t₂ m₂ p ttl =
        { outcome := Except.ok v, cache := (request trans c now m p ttl).cache,
          fetchCalls := 0 }) := by
  constructor
  · intro e he hfresh
    exact request_hit trans c now m p ttl e he hfresh
  · intro t₂ m₂ trans₂ v hnone httl hok ht₂
    rw [request_miss_none trans c now m p ttl hnone] at hok ⊢
    rcases fetchAndStore_cases trans c now m p ttl with
      ⟨n, _, heq⟩ | ⟨r, n, _, _, heq⟩ | ⟨r, n, _, hgood, heq⟩
    · rw [heq] at hok; simp at hok
    · rw [heq] at hok; simp at hok
    · rw [heq] at hok
      simp only [Except.ok.injEq] at hok
      subst hok
      rw [heq]
      simp only [if_pos httl]
      apply request_hit trans₂ _ t₂ m₂ p ttl ⟨r.body.result, now⟩ (cacheGet_cacheSet_self c p _)
      simp only [isExpired, decide_eq_false_iff_not, not_lt]
      omega

/-- C3 at concrete inputs: a cache holding 7 for zones stored at 0 hits at
instant 1000 with ttl 300; and a first dispatch of zones on the empty
cache (transport answering 7 at once) makes the second dispatch at instant
1000, with a different method and a transport that would answer 8, return
the first result 7 from cache with zero fetch calls. -/
theorem C3_cache_hit_short_circuit_witness :
    request (fun _ _ _ => none : FetchFn Nat) [("zones", ⟨7, 0⟩)] 1000 "GET" "zones" 300 =
      { outcome := Except.ok 7, cache := [("zones", ⟨7, 0⟩)], fetchCalls := 0 } ∧
    request (fun _ _ _ => some ⟨true, 200, ⟨true, [], [], 8⟩⟩ : FetchFn Nat)
        (request (fun _ _ _ => some ⟨true, 200, ⟨true, [], [], 7⟩⟩ : FetchFn Nat)
          [] 0 "GET" "zones" 300).cache 1000 "POST" "zones" 300 =
      { outcome := Except.ok 7,
        cache := (request (fun _ _ _ => some ⟨true, 200, ⟨true, [], [], 7⟩⟩ : FetchFn Nat)
          [] 0 "GET" "zones" 300).cache,
        fetchCalls := 0 } := by
  constructor
  · exact (C3_cache_hit_short_circuit (fun _ _ _ => none) [("zones", ⟨7, 0⟩)]
      1000 "GET" "zones" 300).1 ⟨7, 0⟩ rfl rfl
  · exact (C3_cache_hit_short_circuit
      (fun _ _ _ => some ⟨true, 200, ⟨true, [], [], 7⟩⟩) [] 0 "GET" "zones" 300).2
      1000 "POST" (fun _ _ _ => some ⟨true, 200, ⟨true, [], [], 8⟩⟩) 7 rfl
      (by omega) rfl (by omega)

/-- C4: the expiry decision is the strict Int comparison
storedAt < now - 1000 * ttl; hence with an entry present, a dispatch at an
instant strictly before storedAt + 1000 * ttl returns the cached value
with zero fetch calls, and a dispatch strictly after that instant goes to
the network (at least one fetch call). -/
theorem C4_ttl_boundary {α : Type} (trans : FetchFn α) (c : Cache α)
    (now : Nat) (m p : String) (ttl : Nat) (e : CacheEntry α)
    (he : cacheGet c p = some e) :
    (isExpired e.time now ttl = true ↔ (e.time : Int) < (now : Int) - 1000 * (ttl : Int)) ∧
    (now < e.time + 1000 * ttl →
      request trans c now m p ttl =
        { outcome := Except.ok e.result, cache := c, fetchCalls := 0 }) ∧
    (e.time + 1000 * ttl < now → 1 ≤ (request trans c now m p ttl).fetchCalls) := by
  refine ⟨by simp [isExpired], ?_, ?_⟩
  · intro hlt
    apply request_hit trans c now m p ttl e he
    simp only [isExpired, decide_eq_false_iff_not, not_lt]
    omega
  · intro hgt
    rw [request_miss_expired trans c now m p ttl e he
      (by simp only [isExpired, decide_eq_true_eq]; omega)]
    exact fetchAndStore_calls_pos trans c now m p ttl

/-- C4 at concrete inputs: the entry for zones stored at 1000000 with
ttl 1 is returned at instant 1000500 with no fetch call, and at instant
1001500 the dispatcher makes at least one fetch call. -/
theorem C4_ttl_boundary_witness :
    request (fun _ _ _ => none : FetchFn Nat) [("zones", ⟨7, 1000000⟩)]
        1000500 "GET" "zones" 1 =
      { outcome := Except.ok 7, cache := [("zones", ⟨7, 1000000⟩)], fetchCalls := 0 } ∧
    1 ≤ (request (fun _ _ _ => none : FetchFn Nat) [("zones", ⟨7, 1000000⟩)]
        1001500 "GET" "zones" 1).fetchCalls := by
  constructor
  · exact (C4_ttl_boundary (fun _ _ _ => none) [("zones", ⟨7, 1000000⟩)]
      1000500 "GET" "zones" 1 ⟨7, 1000000⟩ rfl).2.1 (by decide)
  · exact (C4_ttl_boundary (fun _ _ _ => none) [("zones", ⟨7, 1000000⟩)]
      1001500 "GET" "zones" 1 ⟨7, 1000000⟩ rfl).2.2 (by decide)

/-- C5: a dispatch with ttl 0 returns exactly the cache it was given — no
write, no clearing — and if such a dispatch made a network call (so it did
not hit), any later ttl-0 dispatch of the same path also makes a network
call. -/
theorem C5_ttl_zero_never_stores {α : Type} (trans trans₂ : FetchFn α) (c : Cache α)
    (t₁ t₂ : Nat) (m m₂ p : String) :
    (request trans c t₁ m p 0).cache = c ∧
    (t₁ ≤ t₂ → 1 ≤ (request trans c t₁ m p 0).fetchCalls →
      1 ≤ (request trans₂ (request trans c t₁ m p 0).cache t₂ m₂ p 0).fetchCalls) := by
  have h1 : (request trans c t₁ m p 0).cache = c := by
    cases he : cacheGet c p with
    | none =>
      rw [request_miss_none trans c t₁ m p 0 he]
      exact fetchAndStore_ttl_zero_cache trans c t₁ m p
    | some e =>
      by_cases hexp : isExpired e.time t₁ 0 = true
      · rw [request_miss_expired trans c t₁ m p 0 e he hexp]
        exact fetchAndStore_ttl_zero_cache trans c t₁ m p
      · rw [request_hit trans c t₁ m p 0 e he (by simpa using hexp)]
  refine ⟨h1, ?_⟩
  intro hle hcalls
  rw [h1]
  cases he : cacheGet c p with
  | none =>
    rw [request_miss_none trans₂ c t₂ m₂ p 0 he]
    exact fetchAndStore_calls_pos trans₂ c t₂ m₂ p 0
  | some e =>
    by_cases hexp : isExpired e.time t₁ 0 = true
    · have hexp₂ : isExpired e.time t₂ 0 = true := by
        simp only [isExpired, decide_eq_true_eq] at hexp ⊢
        omega
      rw [request_miss_expired trans₂ c t₂ m₂ p 0 e he hexp₂]
      exact fetchAndStore_calls_pos trans₂ c t₂ m₂ p 0
    · exfalso
      rw [request_hit trans c t₁ m p 0 e he (by simpa using hexp)] at hcalls
      simp at hcalls

/-- C5 at concrete inputs: a ttl-0 dispatch over a cache holding an old
entry for another path leaves that cache exactly as it was, and two ttl-0
dispatches of zones at instants 5 and 9 each make a network call. -/
theorem C5_ttl_zero_never_stores_witness :
    (request (fun _ _ _ => some ⟨true, 200, ⟨true, [], [], 3⟩⟩ : FetchFn Nat)
      [("user", ⟨1, 2⟩)] 5 "GET" "zones" 0).cache = [("user", ⟨1, 2⟩)] ∧
    1 ≤ (request (fun _ _ _ => some ⟨true, 200, ⟨true, [], [], 4⟩⟩ : FetchFn Nat)
      (request (fun _ _ _ => some ⟨true, 200, ⟨true, [], [], 3⟩⟩ : FetchFn Nat)
        [("user", ⟨1, 2⟩)] 5 "GET" "zones" 0).cache 9 "GET" "zones" 0).fetchCalls := by
  constructor
  · exact (C5_ttl_zero_never_stores (fun _ _ _ => some ⟨true, 200, ⟨true, [], [], 3⟩⟩)
      (fun _ _ _ => some ⟨true, 200, ⟨true, [], [], 4⟩⟩)
      [("user", ⟨1, 2⟩)] 5 9 "GET" "GET" "zones").1
  · exact (C5_ttl_zero_never_stores (fun _ _ _ => some ⟨true, 200, ⟨true, [], [], 3⟩⟩)
      (fun _ _ _ => some ⟨true, 200, ⟨true, [], [], 4⟩⟩)
      [("user", ⟨1, 2⟩)] 5 9 "GET" "GET" "zones").2 (by omega) (by decide)

/-- C6: when the cache does not hit and the first obtained response (at
attempt k) has a not-ok status, the dispatcher fails with an ApiError
carrying the endpoint path and that status, the retry loop having stopped
at that response: exactly k + 1 fetch calls, none after it, and the cache
untouched. -/
theorem C6_api_error_no_retry {α : Type} (trans : FetchFn α) (c : Cache α)
    (now ttl : Nat) (m p : String) (k : Nat) (r : Response α)
    (hk : k < 10) (hnone : ∀ i, i < k → trans m p i = none) (hr : trans m p k = some r)
    (hbad : r.ok = false)
    (hmiss : ∀ e, cacheGet c p = some e → isExpired e.time now ttl = true) :
    request trans c now m p ttl =
      { outcome := Except.error (ApiFail.apiError p r.status), cache := c,
        fetchCalls := k + 1 } := by
  rw [request_miss trans c now m p ttl hmiss]
  exact fetchAndStore_first_bad trans c now m p ttl k r hk hnone hr hbad

/-- C6 at concrete inputs: the transport returns a 403 response on the
very first attempt, and the dispatch of zones over the empty cache fails
at once with the ApiError for zones and 403 after exactly one fetch
call. -/
theorem C6_api_error_no_retry_witness :
    request (fun _ _ _ => some ⟨false, 403, ⟨false, [], [], 0⟩⟩ : FetchFn Nat)
        [] 17 "GET" "zones" 300 =
      { outcome := Except.error (ApiFail.apiError "zones" 403), cache := [],
        fetchCalls := 1 } := by
  exact C6_api_error_no_retry (fun _ _ _ => some ⟨false, 403, ⟨false, [], [], 0⟩⟩)
    [] 17 300 "GET" "zones" 0 ⟨false, 403, ⟨false, [], [], 0⟩⟩ (by omega)
    (fun i hi => absurd hi (by omega)) rfl rfl
    (fun e he => by simp [cacheGet] at he)

/-- C7: on a successful dispatch (cache did not hit, first obtained
response is ok) the dispatcher returns exactly the envelope's result
field; when ttl is positive the result is stored in the cache under the
endpoint path stamped with the dispatch instant, when ttl is zero the
cache is returned unchanged; and the declared default of the ttl
parameter is 300 seconds. -/
theorem C7_unwrap_and_store {α : Type} (trans : FetchFn α) (c : Cache α)
    (now ttl : Nat) (m p : String) (k : Nat) (r : Response α)
    (hk : k < 10) (hnone : ∀ i, i < k → trans m p i = none) (hr : trans m p k = some r)
    (hok : r.ok = true)
    (hmiss : ∀ e, cacheGet c p = some e → isExpired e.time now ttl = true) :
    (request trans c now m p ttl).outcome = Except.ok r.body.result ∧
    (0 < ttl →
      request trans c now m p ttl =
        { outcome := Except.ok r.body.result, cache := cacheSet c p ⟨r.body.result, now⟩,
          fetchCalls := k + 1 } ∧
      cacheGet (request trans c now m p ttl).cache p = some ⟨r.body.result, now⟩) ∧
    (ttl = 0 → (request trans c now m p ttl).cache = c) ∧
    defaultCacheTimeSeconds = 300 := by
  rw [request_miss trans c now m p ttl hmiss,
    fetchAndStore_first_ok trans c now m p ttl k r hk hnone hr hok]
  refine ⟨rfl, fun h => ?_, fun h => ?_, rfl⟩
  · rw [if_pos h]
    exact ⟨rfl, cacheGet_cacheSet_self c p _⟩
  · subst h
    rfl

/-- C7 at concrete inputs: the envelope carrying result 42 (and non-empty
errors and messages fields, which are discarded) dispatched for zones at
instant 50 with ttl 300 returns 42 and stores the entry (42, 50) under
zones; the same dispatch with ttl 0 leaves the cache empty. -/
theorem C7_unwrap_and_store_witness :
    (request (fun _ _ _ => some ⟨true, 200, ⟨true, ["e"], ["m"], 42⟩⟩ : FetchFn Nat)
      [] 50 "GET" "zones" 300).outcome = Except.ok 42 ∧
    request (fun _ _ _ => some ⟨true, 200, ⟨true, ["e"], ["m"], 42⟩⟩ : FetchFn Nat)
      [] 50 "GET" "zones" 300 =
      { outcome := Except.ok 42, cache := [("zones", ⟨42, 50⟩)], fetchCalls := 1 } ∧
    (request (fun _ _ _ => some ⟨true, 200, ⟨true, ["e"], ["m"], 42⟩⟩ : FetchFn Nat)
      [] 50 "GET" "zones" 0).cache = [] ∧
    defaultCacheTimeSeconds = 300 := by
  refine ⟨?_, ?_, ?_, rfl⟩
  · exact (C7_unwrap_and_store (fun _ _ _ => some ⟨true, 200, ⟨true, ["e"], ["m"], 42⟩⟩)
      [] 50 300 "GET" "zones" 0 ⟨true, 200, ⟨true, ["e"], ["m"], 42⟩⟩ (by omega)
      (fun i hi => absurd hi (by omega)) rfl rfl
      (fun e he => by simp [cacheGet] at he)).1
  · exact ((C7_unwrap_and_store (fun _ _ _ => some ⟨true, 200, ⟨true, ["e"], ["m"], 42⟩⟩)
      [] 50 300 "GET" "zones" 0 ⟨true, 200, ⟨true, ["e"], ["m"], 42⟩⟩ (by omega)
      (fun i hi => absurd hi (by omega)) rfl rfl
      (fun e he => by simp [cacheGet] at he)).2.1 (by omega)).1
  · exact (C7_unwrap_and_store (fun _ _ _ => some ⟨true, 200, ⟨true, ["e"], ["m"], 42⟩⟩)
      [] 50 0 "GET" "zones" 0 ⟨true, 200, ⟨true, ["e"], ["m"], 42⟩⟩ (by omega)
      (fun i hi => absurd hi (by omega)) rfl rfl
      (fun e he => by simp [cacheGet] at he)).2.2.1 rfl

/-- Unfolding of the startup block on a present environment value. -/
theorem loadApiKey_some (k : String) (verify : String → Bool) :
    loadApiKey (some k) verify =
      if k = "" then StartupOutcome.exit 1
      else if verify k then StartupOutcome.proceed k
      else StartupOutcome.exit 1 := rfl

/-- C8: the startup block terminates the process (exit code 1) when the
environment carries no key, and when the verifier reports the key invalid;
it proceeds with a key exactly when that key was present in the
environment and the verifier accepted it. -/
theorem C8_startup_gate (env : Option String) (verify : String → Bool) :
    (env = none → loadApiKey env verify = StartupOutcome.exit 1) ∧
    (∀ k, env = some k → verify k = false → loadApiKey env verify = StartupOutcome.exit 1) ∧
    (∀ k, loadApiKey env verify = StartupOutcome.proceed k →
      env = some k ∧ verify k = true) := by
  refine ⟨?_, ?_, ?_⟩
  · intro h
    subst h
    rfl
  · intro k h hv
    subst h
    rw [loadApiKey_some]
    by_cases hk : k = ""
    · simp [hk]
    · simp [hk, hv]
  · intro k h
    cases env with
    | none => simp [loadApiKey] at h
    | some k₂ =>
      rw [loadApiKey_some] at h
      by_cases hk : k₂ = ""
      · simp [hk] at h
      · rw [if_neg hk] at h
        by_cases hv : verify k₂
        · rw [if_pos hv] at h
          simp only [StartupOutcome.proceed.injEq] at h
          subst h
          exact ⟨rfl, hv⟩
        · rw [if_neg hv] at h
          simp at h

/-- C8 at concrete inputs: a missing key exits with code 1, a key the
verifier rejects exits with code 1, and the accepted key abc is exactly
what the startup proceeds with. -/
theorem C8_startup_gate_witness :
    loadApiKey none (fun _ => true) = StartupOutcome.exit 1 ∧
    loadApiKey (some "abc") (fun _ => false) = StartupOutcome.exit 1 ∧
    (some "abc" = some "abc" ∧ (fun (_ : String) => true) "abc" = true) := by
  refine ⟨?_, ?_, ?_⟩
  · exact (C8_startup_gate none (fun _ => true)).1 rfl
  · exact (C8_startup_gate (some "abc") (fun _ => false)).2.1 "abc" rfl rfl
  · exact (C8_startup_gate (some "abc") (fun _ => true)).2.2 "abc" (by rfl)

/-- C9: a dispatch that throws — TransportExhausted or ApiError — returns
the cache exactly as it was given: no entry added, removed or overwritten
on any error path. -/
theorem C9_error_leaves_cache {α : Type} (trans : FetchFn α) (c : Cache α)
    (now ttl : Nat) (m p : String) (err : ApiFail)
    (h : (request trans c now m p ttl).outcome = Except.error err) :
    (request trans c now m p ttl).cache = c := by
  cases he : cacheGet c p with
  | none =>
    rw [request_miss_none trans c now m p ttl he] at h ⊢
    exact fetchAndStore_error_cache trans c now m p ttl err h
  | some e =>
    by_cases hexp : isExpired e.time now ttl = true
    · rw [request_miss_expired trans c now m p ttl e he hexp] at h ⊢
      exact fetchAndStore_error_cache trans c now m p ttl err h
    · rw [request_hit trans c now m p ttl e he (by simpa using hexp)]

/-- C9 at concrete inputs: over a cache holding an expired entry for
zones, a dispatch whose transport always throws fails with
TransportExhausted and leaves that cache identical; one whose transport
answers 500 fails with the ApiError and leaves it identical too. -/
theorem C9_error_leaves_cache_witness :
    (request (fun _ _ _ => none : FetchFn Nat)
      [("zones", ⟨7, 0⟩)] 10000000 "GET" "zones" 300).cache = [("zones", ⟨7, 0⟩)] ∧
    (request (fun _ _ _ => some ⟨false, 500, ⟨false, [], [], 0⟩⟩ : FetchFn Nat)
      [("zones", ⟨7, 0⟩)] 10000000 "GET" "zones" 300).cache = [("zones", ⟨7, 0⟩)] := by
  constructor
  · exact C9_error_leaves_cache (fun _ _ _ => none) [("zones", ⟨7, 0⟩)]
      10000000 300 "GET" "zones" ApiFail.transportExhausted rfl
  · exact C9_error_leaves_cache (fun _ _ _ => some ⟨false, 500, ⟨false, [], [], 0⟩⟩)
      [("zones", ⟨7, 0⟩)] 10000000 300 "GET" "zones"
      (ApiFail.apiError "zones" 500) rfl

/-- C10: expiry is judged against the ttl of the current call — the cache
entry records no ttl at all, only its timestamp — so any entry older than
1000 * ttl milliseconds is refetched whatever ttl was in force when it was
written; and because the comparison is strict, a ttl-0 dispatch still
returns a cached entry stamped at the current millisecond, while a ttl-0
dispatch over a strictly older entry refetches. -/
theorem C10_per_call_ttl {α : Type} (trans : FetchFn α) (c : Cache α)
    (now : Nat) (m p : String) (e : CacheEntry α) (he : cacheGet c p = some e) :
    (∀ ttl₂ : Nat, (e.time : Int) < (now : Int) - 1000 * (ttl₂ : Int) →
      1 ≤ (request trans c now m p ttl₂).fetchCalls) ∧
    (e.time = now →
      request trans c now m p 0 =
        { outcome := Except.ok e.result, cache := c, fetchCalls := 0 }) ∧
    (e.time < now → 1 ≤ (request trans c now m p 0).fetchCalls) := by
  refine ⟨?_, ?_, ?_⟩
  · intro ttl₂ hlt
    rw [request_miss_expired trans c now m p ttl₂ e he
      (by simp only [isExpired, decide_eq_true_eq]; omega)]
    exact fetchAndStore_calls_pos trans c now m p ttl₂
  · intro hnow
    apply request_hit trans c now m p 0 e he
    simp only [isExpired, decide_eq_false_iff_not, not_lt]
    omega
  · intro hlt
    rw [request_miss_expired trans c now m p 0 e he
      (by simp only [isExpired, decide_eq_true_eq]; omega)]
    exact fetchAndStore_calls_pos trans c now m p 0

/-- C10 at concrete inputs: the zones entry written at instant 50 (by a
ttl-300 dispatch, say) is refetched at instant 400050 by a ttl-1 call; a
ttl-0 dispatch at the very instant 50 still returns the cached 7 with no
fetch call; a ttl-0 dispatch at instant 51 refetches. -/
theorem C10_per_call_ttl_witness :
    1 ≤ (request (fun _ _ _ => none : FetchFn Nat) [("zones", ⟨7, 50⟩)]
      400050 "GET" "zones" 1).fetchCalls ∧
    request (fun _ _ _ => none : FetchFn Nat) [("zones", ⟨7, 50⟩)] 50 "GET" "zones" 0 =
      { outcome := Except.ok 7, cache := [("zones", ⟨7, 50⟩)], fetchCalls := 0 } ∧
    1 ≤ (request (fun _ _ _ => none : FetchFn Nat) [("zones", ⟨7, 50⟩)]
      51 "GET" "zones" 0).fetchCalls := by
  refine ⟨?_, ?_, ?_⟩
  · exact (C10_per_call_ttl (fun _ _ _ => none) [("zones", ⟨7, 50⟩)]
      400050 "GET" "zones" ⟨7, 50⟩ rfl).1 1 (by decide)
  · exact (C10_per_call_ttl (fun _ _ _ => none) [("zones", ⟨7, 50⟩)]
      50 "GET" "zones" ⟨7, 50⟩ rfl).2.1 rfl
  · exact (C10_per_call_ttl (fun _ _ _ => none) [("zones", ⟨7, 50⟩)]
      51 "GET" "zones" ⟨7, 50⟩ rfl).2.2 (by decide)

end Cloudflare
